import Mathlib

/-!
# Verification of the `react-voice-recorder` recording component

Shallow embedding of `src/component/VoiceRecorder.tsx`.

The component is a React function component; its logic is embedded as a
deterministic step function over an explicit controller state.  Chunks of
encoded audio are byte lists, blobs are the byte lists obtained by
concatenation, and `Math.round(n / 1024)` on a natural byte count `n` is the
natural number `(n + 512) / 1024` (JavaScript `Math.round` rounds half
towards positive infinity, and `n / 1024` is exact in double precision for
the sizes involved).

Invocations of the caller-supplied `onDataRecorded` callback are modelled as
an emitted event list (`Emit.artifact`), together with the track-release
side effect (`Emit.tracksStopped`).  The `if (onDataRecorded)` guard in the
source only skips the call when no callback was supplied; the emission list
describes the calls made when a callback is present.

React closure-capture semantics matter for the `onstop` handler: the
`isRecording` value it reads is the render-time value captured when
`startRecording` was created.  The model threads that captured value through
the `Session` record.
-/

/-- A chunk of encoded audio bytes delivered by `ondataavailable`. -/
abbrev Chunk := List Nat

/-- `Math.round(n / 1024)` for a natural byte count `n`: JavaScript rounds
half up, so this is `⌊(n + 512) / 1024⌋`. -/
def jsRoundKB (n : Nat) : Nat := (n + 512) / 1024

/-- The resource handle (`url` field) handed to the caller: the empty string
for the provisional artifact, or an object URL allocated for a blob by
`URL.createObjectURL`. -/
inductive ResourceUrl where
  | empty : ResourceUrl
  | objectUrlFor (blobData : List Nat) : ResourceUrl
deriving DecidableEq, Repr

/-- The argument of the `onDataRecorded` callback
(`{blob, url, type, isRecording, size}`).  The blob is its byte content. -/
structure Artifact where
  blob : List Nat
  url : ResourceUrl
  type : String
  isRecording : Bool
  size : Nat
deriving DecidableEq, Repr

/-- Observable effects of a step: an `onDataRecorded` invocation, or the
release of the capture device's tracks (`track.stop()` on every track). -/
inductive Emit where
  | artifact (a : Artifact) : Emit
  | tracksStopped : Emit
deriving DecidableEq, Repr

/-- One entry of the `compressionSettings` object:
`{ mimeType, audioBitsPerSecond }`. -/
structure CompressionSetting where
  mimeType : String
  audioBitsPerSecond : Option Nat
deriving DecidableEq, Repr

/-- The `compressionSettings` object, as JavaScript property lookup: the four
declared keys map to their settings, any other key reads as `undefined`
(`none`). -/
def compressionSettings (level : String) : Option CompressionSetting :=
  if level = "none" then some ⟨"audio/wav", none⟩
  else if level = "low" then some ⟨"audio/webm", some 96000⟩
  else if level = "medium" then some ⟨"audio/webm", some 64000⟩
  else if level = "high" then some ⟨"audio/webm", some 32000⟩
  else none

/-- The default-parameter semantics of
`compressionLevel = 'medium'`: the default applies exactly when the caller
omitted the prop (supplied `undefined`). -/
def resolveCompressionLevel (prop : Option String) : String :=
  prop.getD "medium"

/-- The fallback list of `getSupportedMimeType`, in source order. -/
def fallbackMimeTypes : List String :=
  ["audio/webm", "audio/ogg", "audio/mp4", "audio/wav"]

/-- `getSupportedMimeType`, given the setting selected for the current
compression level and the platform predicate `MediaRecorder.isTypeSupported`.
The `setting.mimeType &&` guard is JavaScript truthiness: an empty string is
falsy. -/
def getSupportedMimeType (setting : CompressionSetting)
    (isTypeSupported : String → Bool) : String :=
  if !setting.mimeType.isEmpty && isTypeSupported setting.mimeType then
    setting.mimeType
  else
    match fallbackMimeTypes.find? isTypeSupported with
    | some t => t
    | none => ""

/-- The data captured by the closures `startRecording` installs on the
`MediaRecorder` it creates: the resolved mime type, the render-time
`isRecording` value (read by `onstop` when building the final artifact), and
the `audioBitsPerSecond` option passed to the recorder (set only when the
level is not `'none'` and the setting's bitrate is truthy). -/
structure Session where
  mimeType : String
  capturedIsRecording : Bool
  bitrateOption : Option Nat
deriving DecidableEq, Repr

/-- The controller state: React state (`isRecording`, `remainingTime`,
`audioBlob`, `error`) and refs (`audioChunksRef`, `streamRef` as a liveness
flag for the acquired tracks, `startTimeRef`, `mediaRecorderRef` as the
`Session` carrying its closures' captured data). -/
structure RecorderState where
  isRecording : Bool
  remainingTime : Nat
  audioChunks : List Chunk
  audioBlob : Option (List Nat)
  error : Option String
  session : Option Session
  streamActive : Bool
  startTime : Option Nat
deriving DecidableEq, Repr

/-- State at mount: not recording, countdown at the configured duration, no
chunks, no error, no recorder, no stream. -/
def initialState (duration : Nat) : RecorderState :=
  { isRecording := false
    remainingTime := duration
    audioChunks := []
    audioBlob := none
    error := none
    session := none
    streamActive := false
    startTime := none }

/-- The props the component reads during an event: configured duration,
the `compressionLevel` prop as supplied (`none` = omitted), and the
platform's format-support predicate. -/
structure Props where
  duration : Nat
  compressionLevel : Option String
  isTypeSupported : String → Bool

/-- The `ondataavailable` handler: push the chunk iff `event.data.size > 0`. -/
def onDataAvailableHandler (s : RecorderState) (data : Chunk) : RecorderState :=
  if 0 < data.length then
    { s with audioChunks := s.audioChunks ++ [data] }
  else s

/-- The `onstop` handler.  With at least one accumulated chunk it assembles
the blob from all chunks in arrival order, stores it, and invokes
`onDataRecorded` with the blob, a fresh object URL, the resolved type
(`mimeType || 'audio/wav'`), the closure-captured `isRecording`, and the
rounded size in KB.  With zero chunks it emits nothing.  Either way it then
stops all tracks of the stream, if one is held. -/
def onStopHandler (mimeType : String) (capturedIsRecording : Bool)
    (s : RecorderState) : RecorderState × List Emit :=
  let blobData := s.audioChunks.flatten
  let artifactEmits : List Emit :=
    if 0 < s.audioChunks.length then
      [Emit.artifact
        { blob := blobData
          url := ResourceUrl.objectUrlFor blobData
          type := if mimeType.isEmpty then "audio/wav" else mimeType
          isRecording := capturedIsRecording
          size := jsRoundKB blobData.length }]
    else []
  let s' :=
    if 0 < s.audioChunks.length then { s with audioBlob := some blobData } else s
  let trackEmits : List Emit :=
    if s.streamActive then [Emit.tracksStopped] else []
  ({ s' with streamActive := false }, artifactEmits ++ trackEmits)

/-- The provisional artifact emitted at the top of `startRecording`:
empty blob, empty url, `'audio/wav'`, `isRecording: true`, `size: 0`. -/
def provisionalArtifact : Artifact :=
  { blob := []
    url := ResourceUrl.empty
    type := "audio/wav"
    isRecording := true
    size := 0 }

/-- `startRecording`.  `grant` is the outcome of the awaited
`getUserMedia` request and `denyMsg` the message of the rejection when
denied.  `cap` is the render-time `isRecording` value the created closures
capture.  The body first clears the error, resets the chunk list and blob,
emits the provisional artifact, records the start time and resets the
countdown.  On grant it acquires the stream and resolves the mime type;
a compression level missing from `compressionSettings` makes the
`setting.mimeType` access inside `getSupportedMimeType` throw, which the
`catch` turns into an error message and `isRecording := false` (the stream
stays acquired: the catch does not release it).  Otherwise it installs the
recorder with its captured closure data and enters recording.  On denial the
`catch` records the error message and ends not recording. -/
def startRecording (p : Props) (grant : Bool) (denyMsg : String) (cap : Bool)
    (now : Nat) (s : RecorderState) : RecorderState × List Emit :=
  let level := resolveCompressionLevel p.compressionLevel
  let s0 := { s with
    error := none
    audioChunks := []
    audioBlob := none
    startTime := some now
    remainingTime := p.duration }
  let emits := [Emit.artifact provisionalArtifact]
  if grant then
    let s1 := { s0 with streamActive := true }
    match compressionSettings level with
    | none =>
        ({ s1 with
            error := some
              "Could not access microphone: Cannot read properties of undefined"
            isRecording := false }, emits)
    | some setting =>
        let mimeType := getSupportedMimeType setting p.isTypeSupported
        let bitrate : Option Nat :=
          match setting.audioBitsPerSecond with
          | some b => if level ≠ "none" ∧ b ≠ 0 then some b else none
          | none => none
        ({ s1 with
            session := some ⟨mimeType, cap, bitrate⟩
            isRecording := true }, emits)
  else
    ({ s0 with
        error := some ("Could not access microphone: " ++ denyMsg)
        isRecording := false }, emits)

/-- `stopRecording`: guarded by `mediaRecorderRef.current && isRecording`;
requests the recorder stop (the platform later fires the final
`ondataavailable` and `onstop`), leaves recording state, and clears the
countdown timer.  Otherwise a no-op. -/
def stopRecording (s : RecorderState) : RecorderState × List Emit :=
  if s.session.isSome ∧ s.isRecording then
    ({ s with isRecording := false }, [])
  else (s, [])

/-- The 100ms timer callback: recompute the elapsed whole seconds from
`startTimeRef`, set the countdown to `max(0, duration - elapsed)` (natural
subtraction), and call `stopRecording` when it reached zero. -/
def timerTick (duration : Nat) (now : Nat) (s : RecorderState) :
    RecorderState × List Emit :=
  let elapsedTime :=
    match s.startTime with
    | some st => (now - st) / 1000
    | none => 0
  let newRemainingTime := duration - elapsedTime
  let s' := { s with remainingTime := newRemainingTime }
  if newRemainingTime = 0 then stopRecording s' else (s', [])

/-- `toggleRecording`: stop when recording, otherwise run `startRecording`.
The closure-captured `isRecording` handed to `startRecording` is the same
render-time value the dispatch reads. -/
def toggleRecording (p : Props) (grant : Bool) (denyMsg : String) (now : Nat)
    (s : RecorderState) : RecorderState × List Emit :=
  if s.isRecording then stopRecording s
  else startRecording p grant denyMsg s.isRecording now s

/-- The events the environment can deliver to the controller. -/
inductive Event where
  | toggle (grant : Bool) (denyMsg : String) (now : Nat) : Event
  | tick (now : Nat) : Event
  | dataAvailable (data : Chunk) : Event
  | recorderStopped : Event

/-- One controller step.  The countdown interval exists only while
`isRecording` (the timer effect installs it on entering recording and its
cleanup clears it), so ticks act only then.  `ondataavailable` and `onstop`
exist once a recorder has been created; `onstop` runs with the mime type and
render-time `isRecording` its closure captured. -/
def step (p : Props) (s : RecorderState) : Event → RecorderState × List Emit
  | Event.toggle grant denyMsg now => toggleRecording p grant denyMsg now s
  | Event.tick now => if s.isRecording then timerTick p.duration now s else (s, [])
  | Event.dataAvailable data =>
      if s.session.isSome then (onDataAvailableHandler s data, []) else (s, [])
  | Event.recorderStopped =>
      match s.session with
      | some sess => onStopHandler sess.mimeType sess.capturedIsRecording s
      | none => (s, [])

/-- States reachable from mount under any sequence of events, with the props
(including a live `duration` or `compressionLevel` change) re-read at each
event. -/
inductive Reachable : RecorderState → Prop where
  | init (duration : Nat) : Reachable (initialState duration)
  | step {s : RecorderState} (p : Props) (e : Event) :
      Reachable s → Reachable (step p s e).1

/-- A sample session as `startRecording` creates it under a webm-supporting
platform at level medium: resolved type webm, captured render-time
`isRecording` false, bitrate 64000. -/
def sampleSession : Session :=
  { mimeType := "audio/webm", capturedIsRecording := false,
    bitrateOption := some 64000 }

/-- A sample mid-recording controller state used to instantiate theorems:
recording, two accumulated chunks, live stream, recorder installed. -/
def sampleRecordingState : RecorderState :=
  { isRecording := true
    remainingTime := 10
    audioChunks := [[1, 2], [3]]
    audioBlob := none
    error := none
    session := some sampleSession
    streamActive := true
    startTime := some 0 }

/-- Sample props: duration 60, level medium, every format supported. -/
def sampleProps : Props :=
  { duration := 60, compressionLevel := some "medium",
    isTypeSupported := fun _ => true }

/-- C4: the compression profile table maps `none` to wav with no bitrate,
`low` to webm at 96000 bits/s, `medium` to webm at 64000 bits/s, and `high`
to webm at 32000 bits/s. -/
theorem compressionSettings_documented_hints :
    compressionSettings "none" = some ⟨"audio/wav", none⟩ ∧
    compressionSettings "low" = some ⟨"audio/webm", some 96000⟩ ∧
    compressionSettings "medium" = some ⟨"audio/webm", some 64000⟩ ∧
    compressionSettings "high" = some ⟨"audio/webm", some 32000⟩ := by
  refine ⟨?_, ?_, ?_, ?_⟩ <;> rfl

/-- C3: the mime-type resolver returns the preferred container format when it
is supported; otherwise the first supported entry of
`['audio/webm', 'audio/ogg', 'audio/mp4', 'audio/wav']`; and the empty string
when none of those is supported — a total function for every preferred format
(a container format is a non-empty string) and every capability predicate. -/
theorem getSupportedMimeType_spec (pref : String) (bps : Option Nat)
    (sup : String → Bool) (hpref : pref ≠ "") :
    (sup pref = true → getSupportedMimeType ⟨pref, bps⟩ sup = pref) ∧
    (sup pref = false →
      ((∀ t ∈ fallbackMimeTypes, sup t = false) →
        getSupportedMimeType ⟨pref, bps⟩ sup = "") ∧
      (∀ i : Fin fallbackMimeTypes.length,
        sup (fallbackMimeTypes.get i) = true →
        (∀ j : Fin fallbackMimeTypes.length, (j : Nat) < (i : Nat) →
          sup (fallbackMimeTypes.get j) = false) →
        getSupportedMimeType ⟨pref, bps⟩ sup = fallbackMimeTypes.get i)) := by
  have hne : pref.isEmpty = false := by
    cases h : pref.isEmpty
    · rfl
    · exact absurd ((String.isEmpty_iff pref).mp h) hpref
  refine ⟨fun hsup => ?_, fun hsup => ⟨fun hall => ?_, fun i hi hjs => ?_⟩⟩
  · simp [getSupportedMimeType, hne, hsup]
  · have h0 := hall "audio/webm" (by simp [fallbackMimeTypes])
    have h1 := hall "audio/ogg" (by simp [fallbackMimeTypes])
    have h2 := hall "audio/mp4" (by simp [fallbackMimeTypes])
    have h3 := hall "audio/wav" (by simp [fallbackMimeTypes])
    simp [getSupportedMimeType, hne, hsup, fallbackMimeTypes, List.find?,
      h0, h1, h2, h3]
  · fin_cases i
    · simp only [fallbackMimeTypes, List.get] at hi ⊢
      simp [getSupportedMimeType, hne, hsup, fallbackMimeTypes, List.find?, hi]
    · have h0 := hjs ⟨0, by simp [fallbackMimeTypes]⟩ (by simp)
      simp only [fallbackMimeTypes, List.get] at hi h0 ⊢
      simp [getSupportedMimeType, hne, hsup, fallbackMimeTypes, List.find?,
        hi, h0]
    · have h0 := hjs ⟨0, by simp [fallbackMimeTypes]⟩ (by simp)
      have h1 := hjs ⟨1, by simp [fallbackMimeTypes]⟩ (by simp)
      simp only [fallbackMimeTypes, List.get] at hi h0 h1 ⊢
      simp [getSupportedMimeType, hne, hsup, fallbackMimeTypes, List.find?,
        hi, h0, h1]
    · have h0 := hjs ⟨0, by simp [fallbackMimeTypes]⟩ (by simp)
      have h1 := hjs ⟨1, by simp [fallbackMimeTypes]⟩ (by simp)
      have h2 := hjs ⟨2, by simp [fallbackMimeTypes]⟩ (by simp)
      simp only [fallbackMimeTypes, List.get] at hi h0 h1 h2 ⊢
      simp [getSupportedMimeType, hne, hsup, fallbackMimeTypes, List.find?,
        hi, h0, h1, h2]

/-- Witness for C3 at a concrete preferred format and capability predicate. -/
theorem getSupportedMimeType_spec_witness :
    ("audio/webm" : String) ≠ "" ∧
    getSupportedMimeType ⟨"audio/webm", some 64000⟩
      (fun t => t == "audio/webm") = "audio/webm" :=
  ⟨by decide,
    (getSupportedMimeType_spec "audio/webm" (some 64000)
      (fun t => t == "audio/webm") (by decide)).1 (by decide)⟩

/-- C5 counterexample: supplying the unrecognized level `"ultra"` does not
behave as if `"medium"` had been supplied and is not error-free: the profile
lookup yields nothing (`undefined`) where medium yields the webm/64000
profile, and a granted start attempt under `"ultra"` ends not recording with
an error recorded, while under `"medium"` it enters recording with no
error. -/
theorem compressionLevel_unrecognized_not_medium :
    compressionSettings (resolveCompressionLevel (some "ultra")) = none ∧
    compressionSettings (resolveCompressionLevel (some "medium")) =
      some ⟨"audio/webm", some 64000⟩ ∧
    (step ⟨60, some "ultra", fun _ => true⟩ (initialState 60)
        (Event.toggle true "" 0)).1.isRecording = false ∧
    (step ⟨60, some "ultra", fun _ => true⟩ (initialState 60)
        (Event.toggle true "" 0)).1.error.isSome = true ∧
    (step ⟨60, some "medium", fun _ => true⟩ (initialState 60)
        (Event.toggle true "" 0)).1.isRecording = true ∧
    (step ⟨60, some "medium", fun _ => true⟩ (initialState 60)
        (Event.toggle true "" 0)).1.error = none := by
  refine ⟨rfl, rfl, rfl, rfl, rfl, rfl⟩

/-- C5 amended: only an omitted `compressionLevel` falls back to `"medium"`
(the default parameter); a supplied unrecognized value has no entry in the
profile table, and a granted start attempt with it takes the catch path —
error recorded, not recording — instead of behaving as medium. -/
theorem compressionLevel_default_and_unrecognized (lvl : String)
    (hl : compressionSettings lvl = none) (p : Props) (s : RecorderState)
    (hrec : s.isRecording = false) (hp : p.compressionLevel = some lvl)
    (now : Nat) :
    resolveCompressionLevel none = "medium" ∧
    (step p s (Event.toggle true "" now)).1.isRecording = false ∧
    (step p s (Event.toggle true "" now)).1.error.isSome = true := by
  refine ⟨rfl, ?_, ?_⟩ <;>
    simp [step, toggleRecording, hrec, startRecording, resolveCompressionLevel,
      hp, hl]

/-- Witness for the amended C5 at the concrete unrecognized level "ultra". -/
theorem compressionLevel_default_and_unrecognized_witness :
    compressionSettings "ultra" = none ∧
    (initialState 60).isRecording = false ∧
    (⟨60, some "ultra", fun _ => true⟩ : Props).compressionLevel =
      some "ultra" ∧
    (resolveCompressionLevel none = "medium" ∧
     (step ⟨60, some "ultra", fun _ => true⟩ (initialState 60)
        (Event.toggle true "" 0)).1.isRecording = false ∧
     (step ⟨60, some "ultra", fun _ => true⟩ (initialState 60)
        (Event.toggle true "" 0)).1.error.isSome = true) :=
  ⟨rfl, rfl, rfl,
    compressionLevel_default_and_unrecognized "ultra" rfl
      ⟨60, some "ultra", fun _ => true⟩ (initialState 60) rfl rfl 0⟩

/-- C8: a start attempt whose device acquisition is denied records the
human-readable message built from the denial, and ends not recording; the
same holds for the exception thrown when the compression-level lookup fails.
`startRecording` is a total function of the outcome, so no exception
propagates to the caller. -/
theorem startRecording_failure_paths (p : Props) (s : RecorderState)
    (hrec : s.isRecording = false) (denyMsg : String) (now : Nat) :
    ((step p s (Event.toggle false denyMsg now)).1.error =
       some ("Could not access microphone: " ++ denyMsg) ∧
     (step p s (Event.toggle false denyMsg now)).1.isRecording = false) ∧
    (compressionSettings (resolveCompressionLevel p.compressionLevel) = none →
      (step p s (Event.toggle true denyMsg now)).1.error.isSome = true ∧
      (step p s (Event.toggle true denyMsg now)).1.isRecording = false) := by
  refine ⟨⟨?_, ?_⟩, fun hl => ⟨?_, ?_⟩⟩ <;>
    simp [step, toggleRecording, hrec, startRecording, *]

/-- Witness for C8 at a concrete denied start. -/
theorem startRecording_failure_paths_witness :
    (initialState 60).isRecording = false ∧
    ((step ⟨60, some "medium", fun _ => true⟩ (initialState 60)
        (Event.toggle false "Permission denied" 0)).1.error =
       some ("Could not access microphone: " ++ "Permission denied") ∧
     (step ⟨60, some "medium", fun _ => true⟩ (initialState 60)
        (Event.toggle false "Permission denied" 0)).1.isRecording = false) :=
  ⟨rfl,
    (startRecording_failure_paths ⟨60, some "medium", fun _ => true⟩
      (initialState 60) rfl "Permission denied" 0).1⟩

/-- C10: a start attempt that fails after the provisional artifact was
emitted (device denial, or the exception from a failed compression-level
lookup) makes no further `onDataRecorded` invocation: the attempt's emission
list is exactly the one provisional artifact, whose `isRecording` field is
`true` and is never corrected to `false`. -/
theorem failed_start_attempt_emissions (p : Props) (s : RecorderState)
    (hrec : s.isRecording = false) (denyMsg : String) (now : Nat) :
    (step p s (Event.toggle false denyMsg now)).2 =
      [Emit.artifact provisionalArtifact] ∧
    (compressionSettings (resolveCompressionLevel p.compressionLevel) = none →
      (step p s (Event.toggle true denyMsg now)).2 =
        [Emit.artifact provisionalArtifact]) ∧
    provisionalArtifact.isRecording = true := by
  refine ⟨?_, fun hl => ?_, rfl⟩ <;>
    simp [step, toggleRecording, hrec, startRecording, *]

/-- Witness for C10 at a concrete denied start. -/
theorem failed_start_attempt_emissions_witness :
    (initialState 60).isRecording = false ∧
    (step ⟨60, some "medium", fun _ => true⟩ (initialState 60)
        (Event.toggle false "Permission denied" 0)).2 =
      [Emit.artifact provisionalArtifact] :=
  ⟨rfl,
    (failed_start_attempt_emissions ⟨60, some "medium", fun _ => true⟩
      (initialState 60) rfl "Permission denied" 0).1⟩

/-- Helper: `stopRecording` never touches the recorder ref. -/
theorem stopRecording_session_eq (s : RecorderState) :
    (stopRecording s).1.session = s.session := by
  unfold stopRecording
  split <;> rfl

/-- Helper: the timer callback never touches the recorder ref. -/
theorem timerTick_session_eq (d now : Nat) (s : RecorderState) :
    (timerTick d now s).1.session = s.session := by
  unfold timerTick
  dsimp only
  split
  · exact stopRecording_session_eq _
  · rfl

/-- Helper: `ondataavailable` never touches the recorder ref. -/
theorem onDataAvailableHandler_session_eq (s : RecorderState) (data : Chunk) :
    (onDataAvailableHandler s data).session = s.session := by
  unfold onDataAvailableHandler
  split <;> rfl

/-- Helper: `onstop` never touches the recorder ref. -/
theorem onStopHandler_session_eq (m : String) (c : Bool) (s : RecorderState) :
    (onStopHandler m c s).1.session = s.session := by
  unfold onStopHandler
  dsimp only
  split <;> rfl

/-- Helper: after `startRecording`, the recorder ref is either unchanged
(failed attempt) or a session whose captured `isRecording` is the render-time
value the call closed over. -/
theorem startRecording_session_cases (p : Props) (grant : Bool)
    (denyMsg : String) (cap : Bool) (now : Nat) (s : RecorderState)
    (sess : Session)
    (hs : (startRecording p grant denyMsg cap now s).1.session = some sess) :
    s.session = some sess ∨ sess.capturedIsRecording = cap := by
  unfold startRecording at hs
  dsimp only at hs
  split at hs
  · split at hs
    · exact Or.inl hs
    · refine Or.inr ?_
      simp only [Option.some.injEq] at hs
      rw [← hs]
  · exact Or.inl hs

/-- Helper invariant: in every reachable state, the installed session's
captured render-time `isRecording` value is `false`, because the start path
only runs from the non-recording branch of `toggleRecording`. -/
theorem reachable_session_captured_false {s : RecorderState}
    (h : Reachable s) :
    ∀ sess : Session, s.session = some sess →
      sess.capturedIsRecording = false := by
  induction h with
  | init d =>
    intro sess hs
    simp [initialState] at hs
  | @step s p e hr ih =>
    intro sess hs
    cases e with
    | toggle grant denyMsg now =>
      simp only [step, toggleRecording] at hs
      by_cases hrec : s.isRecording = true
      · rw [if_pos hrec, stopRecording_session_eq] at hs
        exact ih sess hs
      · rw [if_neg hrec] at hs
        have hfalse : s.isRecording = false := by
          cases hb : s.isRecording
          · rfl
          · exact absurd hb hrec
        rcases startRecording_session_cases p grant denyMsg s.isRecording now
            s sess hs with hold | hcap
        · exact ih sess hold
        · rw [hcap, hfalse]
    | tick now =>
      simp only [step] at hs
      by_cases hrec : s.isRecording = true
      · rw [if_pos hrec, timerTick_session_eq] at hs
        exact ih sess hs
      · rw [if_neg hrec] at hs
        exact ih sess hs
    | dataAvailable data =>
      simp only [step] at hs
      by_cases hsome : s.session.isSome = true
      · rw [if_pos hsome, onDataAvailableHandler_session_eq] at hs
        exact ih sess hs
      · rw [if_neg hsome] at hs
        exact ih sess hs
    | recorderStopped =>
      simp only [step] at hs
      cases hsess : s.session with
      | none => rw [hsess] at hs; exact ih sess hs
      | some sess0 =>
        rw [hsess] at hs
        rw [onStopHandler_session_eq] at hs
        exact ih sess hs

/-- C1: stopping a session with an installed recorder and at least one
accumulated chunk emits a final artifact whose blob is the concatenation of
all accumulated chunks in arrival order, whose size field is
round(byteLength / 1024), whose type is the resolved mime type (or
`'audio/wav'` when the resolver returned the empty string), and for whose
blob an object URL is created. -/
theorem onstop_final_artifact (p : Props) (s : RecorderState) (sess : Session)
    (hs : s.session = some sess) (hc : s.audioChunks ≠ []) :
    ∃ a : Artifact,
      (step p s Event.recorderStopped).2.head? = some (Emit.artifact a) ∧
      a.blob = s.audioChunks.flatten ∧
      a.size = (a.blob.length + 512) / 1024 ∧
      a.type = (if sess.mimeType = "" then "audio/wav" else sess.mimeType) ∧
      a.url = ResourceUrl.objectUrlFor a.blob := by
  have hlen : 0 < s.audioChunks.length := List.length_pos.mpr hc
  refine ⟨{ blob := s.audioChunks.flatten
            url := ResourceUrl.objectUrlFor s.audioChunks.flatten
            type := if sess.mimeType.isEmpty then "audio/wav" else sess.mimeType
            isRecording := sess.capturedIsRecording
            size := jsRoundKB s.audioChunks.flatten.length },
          ?_, rfl, rfl, ?_, rfl⟩
  · simp [step, hs, onStopHandler, hlen]
  · by_cases h : sess.mimeType = "" <;>
      simp [h, String.isEmpty_iff]

/-- Witness for C1 at the sample mid-recording state. -/
theorem onstop_final_artifact_witness :
    sampleRecordingState.session = some sampleSession ∧
    sampleRecordingState.audioChunks ≠ [] ∧
    (∃ a : Artifact,
      (step sampleProps sampleRecordingState Event.recorderStopped).2.head? =
        some (Emit.artifact a) ∧
      a.blob = sampleRecordingState.audioChunks.flatten ∧
      a.size = (a.blob.length + 512) / 1024 ∧
      a.type =
        (if sampleSession.mimeType = "" then "audio/wav"
         else sampleSession.mimeType) ∧
      a.url = ResourceUrl.objectUrlFor a.blob) :=
  ⟨rfl, by decide,
    onstop_final_artifact sampleProps sampleRecordingState sampleSession rfl
      (by decide)⟩

/-- C2: while recording with an installed recorder, a tick recomputes the
countdown as max(0, duration − ⌊(now − startTime)/1000⌋) from the duration
current at that tick, and triggers the stop transition exactly when it
reached zero: a state still recording after the tick has elapsed strictly
below the configured duration, so the session never runs past it. -/
theorem tick_countdown_and_autostop (p : Props) (s : RecorderState)
    (hrec : s.isRecording = true) (hsess : s.session.isSome = true)
    (st : Nat) (hst : s.startTime = some st) (now : Nat) (hnow : st ≤ now) :
    ((step p s (Event.tick now)).1.remainingTime : Int) =
      max 0 ((p.duration : Int) - (((now - st) / 1000 : Nat) : Int)) ∧
    ((step p s (Event.tick now)).1.isRecording = false ↔
      p.duration ≤ (now - st) / 1000) ∧
    ((step p s (Event.tick now)).1.isRecording = true →
      (now - st) / 1000 < p.duration) := by
  have hstep : step p s (Event.tick now) =
      (if p.duration - (now - st) / 1000 = 0 then
        ({ s with remainingTime := p.duration - (now - st) / 1000
                  isRecording := false }, ([] : List Emit))
      else
        ({ s with remainingTime := p.duration - (now - st) / 1000 }, [])) := by
    by_cases h0 : p.duration - (now - st) / 1000 = 0
    · simp [step, hrec, timerTick, hst, h0, stopRecording, hsess]
    · simp [step, hrec, timerTick, hst, h0, stopRecording, hsess]
  rw [hstep]
  by_cases h0 : p.duration - (now - st) / 1000 = 0
  · rw [if_pos h0]
    refine ⟨?_, ?_, ?_⟩
    · simp only [h0]
      omega
    · simp only []
      constructor
      · intro _; omega
      · intro _; trivial
    · intro h
      simp at h
  · rw [if_neg h0]
    refine ⟨?_, ?_, ?_⟩
    · simp only []
      omega
    · simp only [hrec]
      constructor
      · intro h; exact absurd h (by simp)
      · intro h; omega
    · intro _
      omega

/-- Witness for C2 at the sample mid-recording state, 2.5 seconds in. -/
theorem tick_countdown_and_autostop_witness :
    sampleRecordingState.isRecording = true ∧
    sampleRecordingState.session.isSome = true ∧
    sampleRecordingState.startTime = some 0 ∧
    (0 : Nat) ≤ 2500 ∧
    (((step sampleProps sampleRecordingState
        (Event.tick 2500)).1.remainingTime : Int) =
      max 0 ((sampleProps.duration : Int) -
        (((2500 - 0) / 1000 : Nat) : Int)) ∧
    ((step sampleProps sampleRecordingState
        (Event.tick 2500)).1.isRecording = false ↔
      sampleProps.duration ≤ (2500 - 0) / 1000) ∧
    ((step sampleProps sampleRecordingState
        (Event.tick 2500)).1.isRecording = true →
      (2500 - 0) / 1000 < sampleProps.duration)) :=
  ⟨rfl, rfl, rfl, by decide,
    tick_countdown_and_autostop sampleProps sampleRecordingState rfl rfl 0 rfl
      2500 (by decide)⟩

/-- C6 counterexample: from the sample recording state, invoking start is not
ignored: a direct `startRecording` call emits a new provisional artifact
(whose `isRecording` is `true`) and replaces the session, and the component's
only start entry point, `toggleRecording`, does not leave the state unchanged
either — it performs the stop transition. -/
theorem start_while_recording_not_noop :
    sampleRecordingState.isRecording = true ∧
    (startRecording sampleProps true "" sampleRecordingState.isRecording 5
        sampleRecordingState).2 = [Emit.artifact provisionalArtifact] ∧
    provisionalArtifact.isRecording = true ∧
    (startRecording sampleProps true "" sampleRecordingState.isRecording 5
        sampleRecordingState).1.session ≠ sampleRecordingState.session ∧
    (step sampleProps sampleRecordingState (Event.toggle true "" 5)).1 ≠
      sampleRecordingState := by
  refine ⟨rfl, rfl, rfl, ?_, ?_⟩ <;> decide

/-- C6 amended: while a session is recording, the component's only start
entry point, `toggleRecording`, never runs the start path: it performs the
stop transition, emits nothing (in particular no provisional artifact), and
leaves the recorder ref and accumulated chunks untouched, so no second
capture session is created. -/
theorem toggle_while_recording_no_start (p : Props) (s : RecorderState)
    (hrec : s.isRecording = true) (grant : Bool) (denyMsg : String)
    (now : Nat) :
    step p s (Event.toggle grant denyMsg now) = stopRecording s ∧
    (step p s (Event.toggle grant denyMsg now)).2 = [] ∧
    (step p s (Event.toggle grant denyMsg now)).1.session = s.session ∧
    (step p s (Event.toggle grant denyMsg now)).1.audioChunks =
      s.audioChunks := by
  have h1 : step p s (Event.toggle grant denyMsg now) = stopRecording s := by
    simp [step, toggleRecording, hrec]
  refine ⟨h1, ?_, ?_, ?_⟩ <;> rw [h1] <;> unfold stopRecording <;>
    split <;> rfl

/-- Witness for the amended C6 at the sample recording state. -/
theorem toggle_while_recording_no_start_witness :
    sampleRecordingState.isRecording = true ∧
    (step sampleProps sampleRecordingState (Event.toggle false "x" 7)).2 =
      [] ∧
    (step sampleProps sampleRecordingState
        (Event.toggle false "x" 7)).1.session =
      sampleRecordingState.session :=
  ⟨rfl,
    (toggle_while_recording_no_start sampleProps sampleRecordingState rfl
      false "x" 7).2.1,
    (toggle_while_recording_no_start sampleProps sampleRecordingState rfl
      false "x" 7).2.2.1⟩

/-- C7: a recorder stop with zero accumulated chunks emits no artifact (the
callback is not invoked), yet the capture device's tracks are stopped: with a
live stream the sole effect is the track release, and the stream is inactive
afterwards. -/
theorem onstop_zero_chunks (p : Props) (s : RecorderState) (sess : Session)
    (hs : s.session = some sess) (hc : s.audioChunks = []) :
    (∀ a : Artifact,
      Emit.artifact a ∉ (step p s Event.recorderStopped).2) ∧
    (s.streamActive = true →
      (step p s Event.recorderStopped).2 = [Emit.tracksStopped]) ∧
    (step p s Event.recorderStopped).1.streamActive = false := by
  by_cases hstream : s.streamActive = true
  · refine ⟨?_, fun _ => ?_, ?_⟩ <;>
      simp [step, hs, onStopHandler, hc, hstream]
  · refine ⟨?_, fun h => absurd h hstream, ?_⟩ <;>
      simp [step, hs, onStopHandler, hc, hstream]

/-- Witness for C7 at the sample state emptied of chunks. -/
theorem onstop_zero_chunks_witness :
    ({ sampleRecordingState with audioChunks := [] }).session =
      some sampleSession ∧
    ({ sampleRecordingState with audioChunks := [] }).audioChunks = [] ∧
    ((∀ a : Artifact,
      Emit.artifact a ∉
        (step sampleProps { sampleRecordingState with audioChunks := [] }
          Event.recorderStopped).2) ∧
    (({ sampleRecordingState with audioChunks := [] }).streamActive = true →
      (step sampleProps { sampleRecordingState with audioChunks := [] }
          Event.recorderStopped).2 = [Emit.tracksStopped]) ∧
    (step sampleProps { sampleRecordingState with audioChunks := [] }
        Event.recorderStopped).1.streamActive = false) :=
  ⟨rfl, rfl,
    onstop_zero_chunks sampleProps
      { sampleRecordingState with audioChunks := [] } sampleSession rfl rfl⟩

/-- C9: every final artifact emitted at a recorder stop from a reachable
controller state has `isRecording = false`: the `onstop` closure reports the
render-time value it captured, and every session is created from the
non-recording branch of the toggle, so that value is always `false`. -/
theorem final_artifact_not_recording {s : RecorderState} (h : Reachable s)
    (p : Props) (a : Artifact)
    (ha : Emit.artifact a ∈ (step p s Event.recorderStopped).2) :
    a.isRecording = false := by
  cases hsess : s.session with
  | none => simp [step, hsess] at ha
  | some sess =>
    have hcap := reachable_session_captured_false h sess hsess
    by_cases hc : 0 < s.audioChunks.length <;>
      by_cases hstream : s.streamActive = true <;>
      simp [step, hsess, onStopHandler, hc, hstream] at ha <;>
      simp [ha, hcap]

/-- Witness for C9 on a concrete trace: toggle on (granted), one delivered
chunk, then the recorder stop. -/
theorem final_artifact_not_recording_witness :
    Emit.artifact
        ⟨[1, 2, 3], ResourceUrl.objectUrlFor [1, 2, 3], "audio/webm", false,
          0⟩ ∈
      (step sampleProps
        (step sampleProps
          (step sampleProps (initialState 60) (Event.toggle true "" 0)).1
          (Event.dataAvailable [1, 2, 3])).1
        Event.recorderStopped).2 ∧
    (⟨[1, 2, 3], ResourceUrl.objectUrlFor [1, 2, 3], "audio/webm", false,
        0⟩ : Artifact).isRecording = false :=
  ⟨by decide,
    final_artifact_not_recording
      (Reachable.step sampleProps (Event.dataAvailable [1, 2, 3])
        (Reachable.step sampleProps (Event.toggle true "" 0)
          (Reachable.init 60)))
      sampleProps
      ⟨[1, 2, 3], ResourceUrl.objectUrlFor [1, 2, 3], "audio/webm", false, 0⟩
      (by decide)⟩
